import Mathlib

/-!
Shallow embedding of the GPU resource wrapper layer of a Rust/OpenGL
template repository (src/render/buffer.rs and src/render/shader.rs).

Every call into the `gl` C API is modelled as an event appended to a
trace (`GLCall`); the Rust structs become Lean structures and their
methods become pure functions returning the updated struct together
with the trace of device calls they issue, in order.  Device-supplied
values (fresh object names from GenBuffers/CreateProgram, link status,
info-log contents, uniform locations) are inputs to the model, since
the device decides them.  Float uniform payloads are elided from the
events (only ordering and the resolved location matter to the
properties below); integer payloads are kept.
-/

deriving instance DecidableEq for Except

namespace RustGL

/-- Events for the `gl::*` calls the wrapper issues.  Arguments mirror the
Rust call sites exactly: in particular, `mapBuffer`/`unmapBuffer` record the
first argument the code actually passes (`self.id`, a buffer name, even
though the C API expects a binding target there), and `copyBufferSubData`
records the first two arguments the code passes (`self.id`, `dest.id`). -/
inductive GLCall where
  | genBuffers (n : Nat)
  | bindBuffer (target : Nat) (id : Nat)
  | bufferData (target : Nat) (byteSize : Nat) (dataPresent : Bool) (usage : Nat)
  | mapBuffer (firstArg : Nat) (access : Nat)
  | unmapBuffer (firstArg : Nat)
  | copyBufferSubData (readFirst : Nat) (writeFirst : Nat)
      (readOffset : Nat) (writeOffset : Nat) (byteLen : Nat)
  | bindBufferBase (target : Nat) (index : Nat) (id : Nat)
  | createProgram (id : Nat)
  | attachShader (prog : Nat) (shader : Nat)
  | linkProgram (prog : Nat)
  | detachShader (prog : Nat) (shader : Nat)
  | getProgramInfoLog (prog : Nat)
  | useProgram (id : Nat)
  | dispatchCompute (x : Nat) (y : Nat) (z : Nat)
  | memoryBarrier (bits : Nat)
  | getUniformLocationCall (prog : Nat) (name : String)
  | uniform1i (loc : Int) (v : Int)
  | uniform1f (loc : Int)
  | uniform2f (loc : Int)
  | uniform3f (loc : Int)
  | deleteShader (id : Nat)
  | deleteProgram (id : Nat)
deriving DecidableEq, Repr

/-- GL constant `gl::READ_ONLY`. -/
def READ_ONLY : Nat := 0x88B8

/-- GL constant `gl::READ_WRITE`. -/
def READ_WRITE : Nat := 0x88BA

/-- GL constant `gl::ALL_BARRIER_BITS` (all bits set, as a 32-bit mask). -/
def ALL_BARRIER_BITS : Nat := 0xFFFFFFFF

/-- The `BufferType` enum from buffer.rs with its `#[repr(u32)]` values. -/
inductive BufferType where
  | ArrayBuffer
  | ElementArray
  | ShaderStorage
deriving DecidableEq, Repr

/-- Numeric value of each `BufferType` variant (the GLenum it is declared as). -/
def BufferType.toGLenum : BufferType → Nat
  | .ArrayBuffer => 0x8892
  | .ElementArray => 0x8893
  | .ShaderStorage => 0x90D2

/-- The `BufferUsage` enum from buffer.rs with its `#[repr(u32)]` values. -/
inductive BufferUsage where
  | StreamDraw
  | StreamRead
  | StreamCopy
  | StaticDraw
  | StaticRead
  | StaticCopy
  | DynamicDraw
  | DynamicRead
  | DynamicCopy
deriving DecidableEq, Repr

/-- Numeric value of each `BufferUsage` variant. -/
def BufferUsage.toGLenum : BufferUsage → Nat
  | .StreamDraw => 0x88E0
  | .StreamRead => 0x88E1
  | .StreamCopy => 0x88E2
  | .StaticDraw => 0x88E4
  | .StaticRead => 0x88E5
  | .StaticCopy => 0x88E6
  | .DynamicDraw => 0x88E8
  | .DynamicRead => 0x88E9
  | .DynamicCopy => 0x88EA

/-- The struct `BufferObject<T>` from buffer.rs.  The Lean model is
parameterized by `sizeOfT`, the value of `size_of::<T>()` for the fixed
element type `T`.  `size` mirrors the `size: GLsizeiptr` field (a byte
count). -/
structure BufferObject (sizeOfT : Nat) where
  id : Nat
  kind : BufferType
  size : Nat
deriving DecidableEq, Repr

namespace BufferObject

variable {sizeOfT : Nat}

/-- Method `BufferObject::gen(n, kind)`: asks the device for a buffer name
via `gl::GenBuffers` (the device-chosen name is the model input `newId`)
and returns the struct with `size: 0`. -/
def gen (newId : Nat) (n : Nat) (kind : BufferType) :
    BufferObject sizeOfT × List GLCall :=
  (⟨newId, kind, 0⟩, [GLCall.genBuffers n])

/-- Method `BufferObject::bind`: `gl::BindBuffer(self.kind, self.id)`. -/
def bind (b : BufferObject sizeOfT) : List GLCall :=
  [GLCall.bindBuffer b.kind.toGLenum b.id]

/-- Method `BufferObject::unbind`: `gl::BindBuffer(self.kind, 0)`. -/
def unbind (b : BufferObject sizeOfT) : List GLCall :=
  [GLCall.bindBuffer b.kind.toGLenum 0]

/-- Method `BufferObject::set_data(data, usage)` for `data` of length
`dataLen`: sets `self.size = data.len() * size_of::<T>()`, binds, issues
`gl::BufferData` with that byte size and the data pointer, unbinds. -/
def set_data (b : BufferObject sizeOfT) (dataLen : Nat) (usage : BufferUsage) :
    BufferObject sizeOfT × List GLCall :=
  let b1 : BufferObject sizeOfT := { b with size := dataLen * sizeOfT }
  (b1, b1.bind ++ [GLCall.bufferData b1.kind.toGLenum b1.size true usage.toGLenum]
        ++ b1.unbind)

/-- Method `BufferObject::with_data(kind, data, usage)`: `gen` then
`set_data`. -/
def with_data (newId : Nat) (kind : BufferType) (dataLen : Nat)
    (usage : BufferUsage) : BufferObject sizeOfT × List GLCall :=
  let g : BufferObject sizeOfT × List GLCall := gen newId 1 kind
  let s := g.1.set_data dataLen usage
  (s.1, g.2 ++ s.2)

/-- Method `BufferObject::with_capacity(kind, size, usage)`: `gen`, bind,
`gl::BufferData(kind, size * size_of::<T>(), null, usage)`, unbind.  The
struct field `size` is never assigned, so the returned struct keeps the
`0` that `gen` put there. -/
def with_capacity (newId : Nat) (kind : BufferType) (size : Nat)
    (usage : BufferUsage) : BufferObject sizeOfT × List GLCall :=
  let g : BufferObject sizeOfT × List GLCall := gen newId 1 kind
  let buff := g.1
  (buff, g.2 ++ buff.bind
      ++ [GLCall.bufferData buff.kind.toGLenum (size * sizeOfT) false usage.toGLenum]
      ++ buff.unbind)

/-- Trace of `BufferObject::read_slice`: `gl::MapBuffer(self.id, READ_ONLY)`
then `gl::UnmapBuffer(self.id)` (the code passes the buffer name, not a
target, as the first argument of both). -/
def read_slice_trace (b : BufferObject sizeOfT) : List GLCall :=
  [GLCall.mapBuffer b.id READ_ONLY, GLCall.unmapBuffer b.id]

/-- Length, in elements of `T`, of the slice `read_slice` hands its
callback: `slice::from_raw_parts(addr, self.size as usize)` builds a slice
of `self.size` elements. -/
def read_slice_len (b : BufferObject sizeOfT) : Nat := b.size

/-- Trace of `BufferObject::read_write_slice`: like `read_slice` but with
`READ_WRITE` access. -/
def read_write_slice_trace (b : BufferObject sizeOfT) : List GLCall :=
  [GLCall.mapBuffer b.id READ_WRITE, GLCall.unmapBuffer b.id]

/-- Length, in elements of `T`, of the slice `read_write_slice` hands its
callback (`from_raw_parts_mut(addr, self.size as usize)`). -/
def read_write_slice_len (b : BufferObject sizeOfT) : Nat := b.size

/-- Method `BufferObject::copy_to(dest, read_offset, write_offset, length)`:
a single unconditional `gl::CopyBufferSubData(self.id, dest.id, ...)`. -/
def copy_to (b : BufferObject sizeOfT) (dest : BufferObject sizeOfT)
    (read_offset write_offset length : Nat) : List GLCall :=
  [GLCall.copyBufferSubData b.id dest.id read_offset write_offset length]

/-- Method `BufferObject::copy_all_to(dest)`:
`self.copy_to(dest, 0, 0, self.size as usize)`. -/
def copy_all_to (b : BufferObject sizeOfT) (dest : BufferObject sizeOfT) :
    List GLCall :=
  b.copy_to dest 0 0 b.size

/-- Method `BufferObject::bind_base(layout)`:
`gl::BindBufferBase(self.kind, layout, self.id)`, with no unbind after. -/
def bind_base (b : BufferObject sizeOfT) (layout : Nat) : List GLCall :=
  [GLCall.bindBufferBase b.kind.toGLenum layout b.id]

/-- No `impl Drop for BufferObject` exists in buffer.rs, so dropping a
buffer issues no device call at all. -/
def drop_trace : List GLCall := []

end BufferObject

/-- Device-decided quantities the program/link path depends on: the name
`gl::CreateProgram` returns, the link status, the INFO_LOG_LENGTH value,
the actual info-log text, and what `gl::GetUniformLocation` answers per
program and name (`-1` when the uniform is not found). -/
structure LinkDevice where
  newProgramId : Nat
  linkSuccess : Bool
  infoLogLen : Nat
  infoLog : String
  uniformLoc : Nat → String → Int

/-- The struct `Program` from shader.rs: the linked program name and the
`uniform_cache: HashMap<String, GLint>`, modelled as an association list
(keys are unique, first match wins, insertion prepends). -/
structure Program where
  id : Nat
  uniform_cache : List (String × Int)
deriving DecidableEq, Repr

/-- HashMap lookup (`self.uniform_cache.get(name)`) on the association
list model. -/
def cacheLookup : List (String × Int) → String → Option Int
  | [], _ => none
  | (k, v) :: rest, name => if k = name then some v else cacheLookup rest name

namespace Program

/-- Function `Program::from_shaders(shaders)` for shader names `shaders`:
create, attach each, link, detach each, query link status.  On failure the
code reads INFO_LOG_LENGTH, builds `CString::from_vec_unchecked(vec![b' ';
len])` — a string of `len` spaces — and returns it via `to_string_lossy`
WITHOUT ever calling `gl::GetProgramInfoLog`; on success it returns the
program with an empty uniform cache. -/
def from_shaders (dev : LinkDevice) (shaders : List Nat) :
    Except String Program × List GLCall :=
  let id := dev.newProgramId
  let tr := GLCall.createProgram id :: (shaders.map (GLCall.attachShader id))
      ++ [GLCall.linkProgram id] ++ (shaders.map (GLCall.detachShader id))
  if dev.linkSuccess then
    (Except.ok ⟨id, []⟩, tr)
  else
    (Except.error (String.mk (List.replicate dev.infoLogLen ' ')), tr)

/-- Method `Program::set_used`: `gl::UseProgram(self.id)`. -/
def set_used (p : Program) : List GLCall :=
  [GLCall.useProgram p.id]

/-- Method `Program::get_uniform_location(name)`: return the cached value
if present; otherwise query `gl::GetUniformLocation`, insert the answer
(found location or the `-1` not-found sentinel) into the cache, and return
it.  Result: (location, updated program, device calls issued). -/
def get_uniform_location (dev : LinkDevice) (p : Program) (name : String) :
    Int × Program × List GLCall :=
  match cacheLookup p.uniform_cache name with
  | some id => (id, p, [])
  | none =>
    let loc := dev.uniformLoc p.id name
    (loc, { p with uniform_cache := (name, loc) :: p.uniform_cache },
      [GLCall.getUniformLocationCall p.id name])

/-- Method `Program::set_int(name, val)`: `self.set_used()` first, then
`gl::Uniform1i(self.get_uniform_location(name), val)` — the location
lookup (and any device query it makes) happens after the activation. -/
def set_int (dev : LinkDevice) (p : Program) (name : String) (v : Int) :
    Program × List GLCall :=
  let r := get_uniform_location dev p name
  (r.2.1, p.set_used ++ r.2.2 ++ [GLCall.uniform1i r.1 v])

/-- Method `Program::set_float(name, val)` (float payload elided). -/
def set_float (dev : LinkDevice) (p : Program) (name : String) :
    Program × List GLCall :=
  let r := get_uniform_location dev p name
  (r.2.1, p.set_used ++ r.2.2 ++ [GLCall.uniform1f r.1])

/-- Method `Program::set_vec2(name, val)` (float payload elided). -/
def set_vec2 (dev : LinkDevice) (p : Program) (name : String) :
    Program × List GLCall :=
  let r := get_uniform_location dev p name
  (r.2.1, p.set_used ++ r.2.2 ++ [GLCall.uniform2f r.1])

/-- Method `Program::set_vec3(name, val)` (float payload elided). -/
def set_vec3 (dev : LinkDevice) (p : Program) (name : String) :
    Program × List GLCall :=
  let r := get_uniform_location dev p name
  (r.2.1, p.set_used ++ r.2.2 ++ [GLCall.uniform3f r.1])

/-- The body of `impl Drop for Program` in shader.rs: it calls
`gl::DeleteShader(self.id)` on the program name (not
`gl::DeleteProgram`), and touches no shader name. -/
def drop_trace (p : Program) : List GLCall :=
  [GLCall.deleteShader p.id]

end Program

/-- The body of `impl Drop for Shader`: `gl::DeleteShader(self.id)`. -/
def Shader.drop_trace (id : Nat) : List GLCall :=
  [GLCall.deleteShader id]

/-- The struct `ComputeProgram` from shader.rs. -/
structure ComputeProgram where
  program : Program

namespace ComputeProgram

/-- Method `ComputeProgram::set_used`: delegates to `Program::set_used`. -/
def set_used (c : ComputeProgram) : List GLCall :=
  c.program.set_used

/-- Method `ComputeProgram::execute(x, y, z)`: `self.set_used()`, then
`gl::DispatchCompute(x, y, z)`, then
`gl::MemoryBarrier(gl::ALL_BARRIER_BITS)`. -/
def execute (c : ComputeProgram) (x y z : Nat) : List GLCall :=
  c.set_used ++ [GLCall.dispatchCompute x y z, GLCall.memoryBarrier ALL_BARRIER_BITS]

end ComputeProgram

/-- Effect of one GL call on the per-target generic buffer binding state
(target ↦ bound buffer name).  `gl::BindBuffer(t, i)` rebinds target `t`;
`gl::BindBufferBase(t, _, i)` also binds the generic target `t` (GL
semantics). No other call in this layer changes the generic binding. -/
def stepBinding (binding : Nat → Nat) : GLCall → (Nat → Nat)
  | GLCall.bindBuffer t i => fun x => if x = t then i else binding x
  | GLCall.bindBufferBase t _ i => fun x => if x = t then i else binding x
  | _ => binding

/-- Binding state after running a trace of GL calls from a given state. -/
def runBinding (binding : Nat → Nat) : List GLCall → (Nat → Nat) :=
  List.foldl stepBinding binding

/-! Concrete inputs used by witnesses and counterexamples. -/

/-- A device whose uniform lookups all answer the not-found sentinel -1. -/
def devW : LinkDevice := ⟨7, true, 0, "", fun _ _ => -1⟩

/-- A freshly linked program with an empty uniform cache. -/
def pW : Program := ⟨7, []⟩

/-- A device on which linking fails with a non-blank info log of length 11. -/
def devLinkFail : LinkDevice := ⟨3, false, 11, "link failed", fun _ _ => -1⟩

/-- A source buffer of 4-byte elements with tracked size 0. -/
def srcC6 : BufferObject 4 := ⟨1, BufferType.ShaderStorage, 0⟩

/-- A destination buffer of 4-byte elements with tracked size 0. -/
def destC6 : BufferObject 4 := ⟨2, BufferType.ShaderStorage, 0⟩

/-! Claims. -/

/-- C1: the claim says `read_slice` passes the callback a view of exactly
`byteSize / sizeof(T)` elements equal to the uploaded sequence.  The code
passes `self.size` — a byte count — as the element count of
`slice::from_raw_parts`, so after uploading 1 element of a 4-byte type the
callback's view has 4 elements (spanning 16 bytes of a 4-byte buffer, an
out-of-bounds read), not `byteSize / sizeof(T) = 1`. -/
theorem C1_read_slice_length_bug :
    let b : BufferObject 4 :=
      ((BufferObject.gen 5 1 BufferType.ShaderStorage :
          BufferObject 4 × List GLCall).1.set_data 1 BufferUsage.StaticDraw).1
    b.read_slice_len = 4 ∧ b.size / 4 = 1 ∧ b.read_slice_len ≠ b.size / 4 := by
  decide

/-- C2 counterexample: `bind_base` changes the binding state of its target
but does not restore it to zero before returning: starting from the neutral
state, after `bind_base` on a buffer with name 3 the ShaderStorage target is
left bound to 3. -/
theorem C2_bind_base_leaves_bound :
    runBinding (fun _ => 0)
        ((BufferObject.gen 3 1 BufferType.ShaderStorage :
            BufferObject 4 × List GLCall).1.bind_base 0)
        BufferType.ShaderStorage.toGLenum = 3 ∧
    (3 : Nat) ≠ 0 := by
  constructor
  · decide
  · decide

/-- C2 (amended): `set_data` and `with_capacity` restore their binding
target to zero before returning; `read_slice`, `read_write_slice` and
`copy_to` leave the binding state entirely untouched; `bind_base` leaves
the buffer bound to its target (the separate `unbind` method exists for the
caller to restore neutrality). -/
theorem C2_binding_discipline {s : Nat} (β : Nat → Nat) (b dest : BufferObject s)
    (k newId cap ro wo len layout : Nat) (kind : BufferType) (u : BufferUsage) :
    runBinding β (b.set_data k u).2 b.kind.toGLenum = 0 ∧
    runBinding β (BufferObject.with_capacity newId kind cap u :
        BufferObject s × List GLCall).2 kind.toGLenum = 0 ∧
    runBinding β b.read_slice_trace = β ∧
    runBinding β b.read_write_slice_trace = β ∧
    runBinding β (b.copy_to dest ro wo len) = β ∧
    runBinding β (b.bind_base layout) b.kind.toGLenum = b.id := by
  refine ⟨?_, ?_, rfl, rfl, rfl, ?_⟩ <;>
    simp [runBinding, stepBinding, BufferObject.set_data, BufferObject.with_capacity,
      BufferObject.gen, BufferObject.bind, BufferObject.unbind, BufferObject.bind_base]

/-- C3: the first `get_uniform_location` call for a name not in the cache
returns exactly the device's answer (found location or -1 sentinel alike),
issues exactly one device query, and stores the result in the cache; the
next call with the same name returns the cached value, leaves the program
(hence the cache) unchanged, and issues no device call — so, by iterating
the last conjunct, every subsequent call does likewise and the cache entry
is never invalidated. -/
theorem C3_uniform_location_memoized (dev : LinkDevice) (p : Program)
    (name : String) (h : cacheLookup p.uniform_cache name = none) :
    (Program.get_uniform_location dev p name).1 = dev.uniformLoc p.id name ∧
    (Program.get_uniform_location dev p name).2.2 =
      [GLCall.getUniformLocationCall p.id name] ∧
    cacheLookup (Program.get_uniform_location dev p name).2.1.uniform_cache name
      = some (Program.get_uniform_location dev p name).1 ∧
    Program.get_uniform_location dev (Program.get_uniform_location dev p name).2.1 name
      = ((Program.get_uniform_location dev p name).1,
          (Program.get_uniform_location dev p name).2.1, []) := by
  unfold Program.get_uniform_location
  rw [h]
  simp [cacheLookup]

/-- Witness for C3 at a concrete input: program 7 with an empty cache and a
device answering the not-found sentinel -1 for every name. -/
theorem C3_uniform_location_memoized_witness :
    cacheLookup pW.uniform_cache "tint" = none ∧
    (Program.get_uniform_location devW pW "tint").1 = devW.uniformLoc pW.id "tint" ∧
    (Program.get_uniform_location devW pW "tint").2.2 =
      [GLCall.getUniformLocationCall pW.id "tint"] ∧
    cacheLookup (Program.get_uniform_location devW pW "tint").2.1.uniform_cache "tint"
      = some (Program.get_uniform_location devW pW "tint").1 ∧
    Program.get_uniform_location devW (Program.get_uniform_location devW pW "tint").2.1 "tint"
      = ((Program.get_uniform_location devW pW "tint").1,
          (Program.get_uniform_location devW pW "tint").2.1, []) :=
  ⟨rfl, C3_uniform_location_memoized devW pW "tint" rfl⟩

/-- C4: `execute (x, y, z)` issues exactly, in order: activate the
program, dispatch the compute work groups, then a memory barrier over all
memory types (`ALL_BARRIER_BITS`, the all-ones 32-bit mask). -/
theorem C4_execute_sequence (c : ComputeProgram) (x y z : Nat) :
    ComputeProgram.execute c x y z =
      [GLCall.useProgram c.program.id, GLCall.dispatchCompute x y z,
        GLCall.memoryBarrier ALL_BARRIER_BITS] ∧
    ALL_BARRIER_BITS = 0xFFFFFFFF :=
  ⟨rfl, rfl⟩

/-- C5: the claim says a failed link returns a LinkError carrying the
linker's diagnostic text raw.  The code reads only INFO_LOG_LENGTH, never
calls `gl::GetProgramInfoLog`, and returns a string of that many spaces:
on a device whose link log is "link failed" (length 11) the error is 11
spaces, not the log. -/
theorem C5_link_error_blank_bug :
    (Program.from_shaders devLinkFail [1]).1 = Except.error "           " ∧
    devLinkFail.infoLog = "link failed" ∧
    (Program.from_shaders devLinkFail [1]).1 ≠ Except.error devLinkFail.infoLog ∧
    GLCall.getProgramInfoLog devLinkFail.newProgramId ∉
      (Program.from_shaders devLinkFail [1]).2 := by
  decide

/-- C6 counterexample: with both tracked sizes 0 and length 10 both ranges
are out of bounds, yet `copy_to` issues the device copy unconditionally
and reports no error (its return type cannot even express one). -/
theorem C6_no_bounds_check_cex :
    srcC6.size < 0 + 10 ∧ destC6.size < 0 + 10 ∧
    srcC6.copy_to destC6 0 0 10 = [GLCall.copyBufferSubData 1 2 0 0 10] := by
  decide

/-- C6 (amended): `copy_to` performs no CPU-side bounds check: for every
pair of buffers and all offsets and length it unconditionally issues the
single device copy call with the given parameters and cannot fail. -/
theorem C6_copy_unconditional {s : Nat} (b dest : BufferObject s)
    (ro wo len : Nat) :
    b.copy_to dest ro wo len =
      [GLCall.copyBufferSubData b.id dest.id ro wo len] :=
  rfl

/-- C7: the claim says the tracked byte size is always element_count *
sizeof(T), in particular n * sizeof(T) after `with_capacity n`.  The code
never assigns the size field in `with_capacity`: for n = 3 elements of a
4-byte type it allocates 12 bytes of device storage but the tracked size
stays 0 ≠ 12.  (`set_data` does maintain the invariant, last conjunct.) -/
theorem C7_with_capacity_size_bug :
    let r : BufferObject 4 × List GLCall :=
      BufferObject.with_capacity 9 BufferType.ShaderStorage 3 BufferUsage.DynamicCopy
    r.1.size = 0 ∧
    GLCall.bufferData BufferType.ShaderStorage.toGLenum 12 false
      BufferUsage.DynamicCopy.toGLenum ∈ r.2 ∧
    r.1.size ≠ 3 * 4 ∧
    ∀ (s k : Nat) (b : BufferObject s) (u : BufferUsage),
      (b.set_data k u).1.size = k * s :=
  ⟨by decide, by decide, by decide, fun _ _ _ _ => rfl⟩

/-- C8: each typed uniform setter first activates the program itself
(`useProgram self.id` is the very first device call of its trace) and the
uniform write with the location resolved for the name comes after it. -/
theorem C8_setters_activate (dev : LinkDevice) (p : Program) (name : String)
    (v : Int) :
    ((Program.set_int dev p name v).2.head? = some (GLCall.useProgram p.id) ∧
      GLCall.uniform1i (Program.get_uniform_location dev p name).1 v ∈
        (Program.set_int dev p name v).2.tail) ∧
    ((Program.set_float dev p name).2.head? = some (GLCall.useProgram p.id) ∧
      GLCall.uniform1f (Program.get_uniform_location dev p name).1 ∈
        (Program.set_float dev p name).2.tail) ∧
    ((Program.set_vec2 dev p name).2.head? = some (GLCall.useProgram p.id) ∧
      GLCall.uniform2f (Program.get_uniform_location dev p name).1 ∈
        (Program.set_vec2 dev p name).2.tail) ∧
    ((Program.set_vec3 dev p name).2.head? = some (GLCall.useProgram p.id) ∧
      GLCall.uniform3f (Program.get_uniform_location dev p name).1 ∈
        (Program.set_vec3 dev p name).2.tail) := by
  refine ⟨⟨rfl, ?_⟩, ⟨rfl, ?_⟩, ⟨rfl, ?_⟩, ⟨rfl, ?_⟩⟩ <;>
    simp [Program.set_int, Program.set_float, Program.set_vec2, Program.set_vec3,
      Program.set_used]

/-- C9: the claim says dropping a Program releases the program handle and
dropping a buffer releases the buffer handle.  The code's `Drop for
Program` calls `gl::DeleteShader` on the program name (name 7 here), never
`gl::DeleteProgram`, so the program handle is not released; and buffer.rs
has no `Drop` impl at all, so dropping a buffer releases nothing.  The
Program drop does leave shader names (e.g. 4) alone, as the claim's
no-double-free part requires. -/
theorem C9_drop_bug :
    Program.drop_trace ⟨7, []⟩ = [GLCall.deleteShader 7] ∧
    GLCall.deleteProgram 7 ∉ Program.drop_trace ⟨7, []⟩ ∧
    BufferObject.drop_trace = [] ∧
    GLCall.deleteShader 4 ∉ Program.drop_trace ⟨7, []⟩ ∧
    Shader.drop_trace 4 = [GLCall.deleteShader 4] := by
  decide

/-- C10: `copy_all_to dest` is definitionally the ranged copy
`copy_to dest 0 0 s` at the source's current tracked byte size. -/
theorem C10_copy_all_refines (s : Nat) (b dest : BufferObject s) :
    b.copy_all_to dest = b.copy_to dest 0 0 b.size :=
  rfl

end RustGL
